import Mathlib

/-!
# Shallow embedding of `src/src/lib.rs` (lx-zed extension)

The repository is a Zed extension whose only non-trivial logic is the
binary-resolution state machine in `LxExtension`:

* `get_binary_name`, `check_go_available`, `install_language_server`,
  `find_existing_binary`, `language_server_binary_path`,
  `language_server_command`.

External effects (spawning subprocesses via `zed::Command::output()`,
reading the `HOME` environment variable via `std::env::var`, querying
`fs::metadata`, and reporting installation status via
`zed::set_language_server_installation_status`) are modelled by an
`Oracle` answering each query, indexed by a global time counter that
advances at every external query (so the world may change between
queries, e.g. `which` may succeed only after `go install` ran).  Every
embedded function returns its result together with the advanced time
and the ordered trace of events it performed.

Conditional compilation (`#[cfg(target_os = "windows")]`) is modelled
by a `windows : Bool` parameter.  Subprocess output bytes decoded with
`String::from_utf8_lossy` are modelled directly as `String`s, and the
`{:?}` debug formatting of a spawn error is abstracted as the error
message string itself (no claim depends on that formatting).
-/

/-- Captured output of a spawned subprocess: `zed` reports an optional
exit status together with the captured stdout and stderr bytes
(modelled as strings). -/
structure ProcOutput where
  status : Option Int
  stdout : String
  stderr : String
deriving Repr, DecidableEq

/-- Result of `zed::Command::output()`: either the process ran and its
output was captured, or it could not be spawned. -/
inductive SpawnResult where
  | ok (output : ProcOutput)
  | err (msg : String)
deriving Repr, DecidableEq

/-- Installation status values reported to the status sink
(`zed::LanguageServerInstallationStatus`). -/
inductive Status where
  | None
  | CheckingForUpdate
  | Downloading
  | Failed (msg : String)
deriving Repr, DecidableEq

/-- Observable events performed by the resolver, in order. -/
inductive Event where
  | runProc (cmd : String) (args : List String)
  | readEnv (name : String)
  | fsMeta (path : String)
  | setStatus (s : Status)
deriving Repr, DecidableEq

abbrev Trace := List Event

/-- The external world: answers every query as a function of the
current time (the number of external queries made so far), so distinct
invocations of the same command may be answered differently. -/
structure Oracle where
  answerProc : Nat → String → List String → SpawnResult
  answerEnv : Nat → String → Option String
  answerFs : Nat → String → Bool

/-- The extension's only mutable state (`struct LxExtension`). -/
structure LxExtension where
  cached_binary_path : Option String
deriving Repr, DecidableEq

/-- Constructor `LxExtension::new()`. -/
def LxExtension.new : LxExtension := { cached_binary_path := none }

/-- Function `get_binary_name`: `"lx-lsp.exe"` on Windows, `"lx-lsp"` elsewhere. -/
def get_binary_name (windows : Bool) : String :=
  if windows then "lx-lsp.exe" else "lx-lsp"

/-- The PATH-lookup command: `"where"` on Windows, `"which"` elsewhere. -/
def which_cmd (windows : Bool) : String :=
  if windows then "where" else "which"

/-- Rust `str::trim`: drop leading and trailing whitespace (Unicode
`White_Space` is abstracted to `Char.isWhitespace`). -/
def rustTrim (s : String) : String :=
  String.mk (((s.data.dropWhile Char.isWhitespace).reverse.dropWhile Char.isWhitespace).reverse)

/-- Rust `String::from_utf8_lossy(stdout).trim().lines().next().unwrap_or("")`:
first line of the whitespace-trimmed output (Rust `lines()` splits at
`\n` and strips a trailing carriage return from the line). -/
def whichPath (stdout : String) : String :=
  let trimmed := (rustTrim stdout).data
  let l := trimmed.takeWhile (fun c => c ≠ '\n')
  let l := if l.getLast? = some '\r' then l.dropLast else l
  String.mk l

/-- Function `check_go_available`: runs `go version` and reports whether it
spawned and exited 0 (the `eprintln!` logging has no observable
effect and is not modelled). -/
def check_go_available (o : Oracle) (t : Nat) : Bool × Nat × Trace :=
  let r := o.answerProc t "go" ["version"]
  let tr : Trace := [Event.runProc "go" ["version"]]
  match r with
  | .ok output => (output.status == some 0, t + 1, tr)
  | .err _ => (false, t + 1, tr)

/-- The package coordinate `go install` is pointed at. -/
def lxPackage : String := "github.com/kamal-hamza/lx-lsp@latest"

/-- The not-locatable error message used by all three post-install
locate failure returns in `install_language_server`. -/
def locate_failed_msg : String :=
  "Failed to locate installed language server binary"

/-- The fallback arm (`_ =>`) of the post-install locate `match` in
`install_language_server`: check `$HOME/go/bin/<binary name>`. -/
def installLocateFallback (windows : Bool) (o : Oracle) (t : Nat) :
    Except String String × Nat × Trace :=
  let home := o.answerEnv t "HOME"
  let t1 := t + 1
  let tr1 : Trace := [Event.readEnv "HOME"]
  match home with
  | some h =>
    let go_bin_path := h ++ "/go/bin/" ++ get_binary_name windows
    let ex := o.answerFs t1 go_bin_path
    let t2 := t1 + 1
    let tr2 := tr1 ++ [Event.fsMeta go_bin_path]
    if ex then (.ok go_bin_path, t2, tr2)
    else (.error locate_failed_msg, t2, tr2)
  | none => (.error locate_failed_msg, t1, tr1)

/-- Function `install_language_server`: report `Downloading`, run
`go install github.com/kamal-hamza/lx-lsp@latest`, then locate the
installed binary with `which`/`where`, falling back to
`$HOME/go/bin/<binary name>` only when the lookup failed to spawn or
exited non-zero; on success report status `None`. -/
def install_language_server (windows : Bool) (o : Oracle) (t : Nat) :
    Except String String × Nat × Trace :=
  let tr0 : Trace := [Event.setStatus Status.Downloading]
  let ir := o.answerProc t "go" ["install", lxPackage]
  let t1 := t + 1
  let tr1 := tr0 ++ [Event.runProc "go" ["install", lxPackage]]
  match ir with
  | .err e =>
    let error_msg := "Failed to run go install: " ++ e
    (.error error_msg, t1, tr1 ++ [Event.setStatus (Status.Failed error_msg)])
  | .ok output =>
    if output.status != some 0 then
      let error_msg := "Failed to install lx-lsp. Error: " ++ output.stderr
      (.error error_msg, t1, tr1 ++ [Event.setStatus (Status.Failed error_msg)])
    else
      let wr := o.answerProc t1 (which_cmd windows) [get_binary_name windows]
      let t2 := t1 + 1
      let tr2 := tr1 ++ [Event.runProc (which_cmd windows) [get_binary_name windows]]
      let located : Except String String × Nat × Trace :=
        match wr with
        | .ok out2 =>
          if out2.status == some 0 then
            let path := whichPath out2.stdout
            if path.isEmpty then (.error locate_failed_msg, t2, tr2)
            else (.ok path, t2, tr2)
          else
            let (r, t3, tr3) := installLocateFallback windows o t2
            (r, t3, tr2 ++ tr3)
        | .err _ =>
          let (r, t3, tr3) := installLocateFallback windows o t2
          (r, t3, tr2 ++ tr3)
      match located with
      | (.error e, t3, tr3) => (.error e, t3, tr3)
      | (.ok binary_path, t3, tr3) =>
        (.ok binary_path, t3, tr3 ++ [Event.setStatus Status.None])

/-- Function `find_existing_binary`: look the binary up on PATH with
`which`/`where` (success requires exit 0 and a non-empty trimmed first
line), falling back to `$HOME/go/bin/<binary name>` otherwise. -/
def find_existing_binary (windows : Bool) (o : Oracle) (t : Nat) :
    Option String × Nat × Trace :=
  let wr := o.answerProc t (which_cmd windows) [get_binary_name windows]
  let t1 := t + 1
  let tr1 : Trace := [Event.runProc (which_cmd windows) [get_binary_name windows]]
  let fromPath : Option String :=
    match wr with
    | .ok output =>
      if output.status == some 0 then
        let path := whichPath output.stdout
        if path.isEmpty then none else some path
      else none
    | .err _ => none
  match fromPath with
  | some path => (some path, t1, tr1)
  | none =>
    let home := o.answerEnv t1 "HOME"
    let t2 := t1 + 1
    let tr2 := tr1 ++ [Event.readEnv "HOME"]
    match home with
    | some h =>
      let go_bin_path := h ++ "/go/bin/" ++ get_binary_name windows
      let ex := o.answerFs t2 go_bin_path
      let t3 := t2 + 1
      let tr3 := tr2 ++ [Event.fsMeta go_bin_path]
      if ex then (some go_bin_path, t3, tr3) else (none, t3, tr3)
    | none => (none, t2, tr2)

/-- The toolchain-missing error/status message (the Rust string
continuations `\` strip the following newline and indentation). -/
def toolchain_missing_msg : String :=
  "Go toolchain not found. Please install Go to use LX extension.\n\nInstall Go from https://go.dev/doc/install\n\nThe extension will provide syntax highlighting only."

/-- Function `language_server_binary_path` (the `resolve()` entry point):
cache check, `CheckingForUpdate` status, probe, toolchain check,
install, cache population. Returns the result together with the
updated extension state. -/
def language_server_binary_path (windows : Bool) (o : Oracle)
    (ext : LxExtension) (t : Nat) :
    Except String String × LxExtension × Nat × Trace :=
  match ext.cached_binary_path with
  | some path => (.ok path, ext, t, [])
  | none =>
    let tr0 : Trace := [Event.setStatus Status.CheckingForUpdate]
    let (existing, t1, trF) := find_existing_binary windows o t
    let tr1 := tr0 ++ trF
    match existing with
    | some existing_path =>
      (.ok existing_path, { cached_binary_path := some existing_path }, t1,
        tr1 ++ [Event.setStatus Status.None])
    | none =>
      let (goOk, t2, trG) := check_go_available o t1
      let tr2 := tr1 ++ trG
      if !goOk then
        (.error toolchain_missing_msg, ext, t2,
          tr2 ++ [Event.setStatus (Status.Failed toolchain_missing_msg)])
      else
        let (r, t3, trI) := install_language_server windows o t2
        let tr3 := tr2 ++ trI
        match r with
        | .error e => (.error e, ext, t3, tr3)
        | .ok binary_path =>
          (.ok binary_path, { cached_binary_path := some binary_path }, t3, tr3)

/-- The launch-command structure (`zed::Command`); `env` is the list of
environment variables to inject (`Default::default()` is the empty
list). -/
structure ZedCommand where
  command : String
  args : List String
  env : List (String × String)
deriving Repr, DecidableEq

/-- Function `language_server_command`: resolve the binary path and wrap it in a
launch command with empty `args` and default (empty) `env`. -/
def language_server_command (windows : Bool) (o : Oracle)
    (ext : LxExtension) (t : Nat) :
    Except String ZedCommand × LxExtension × Nat × Trace :=
  match language_server_binary_path windows o ext t with
  | (.error e, ext1, t1, tr) => (.error e, ext1, t1, tr)
  | (.ok binary_path, ext1, t1, tr) =>
    (.ok { command := binary_path, args := [], env := [] }, ext1, t1, tr)

/-- A sequence of `resolve()` calls on one extension instance, each
call facing its own world; returns the per-call results and traces and
the final extension state. -/
def resolveSeq (windows : Bool) : List Oracle → LxExtension →
    List (Except String String × Trace) × LxExtension
  | [], ext => ([], ext)
  | o :: os, ext =>
    let (r, ext1, _, tr) := language_server_binary_path windows o ext 0
    let (rest, extF) := resolveSeq windows os ext1
    ((r, tr) :: rest, extF)

/-- Is this event an invocation of the installation subprocess? -/
def isInstallEvent : Event → Bool
  | .runProc "go" ["install", a] => a == lxPackage
  | _ => false

/-- Is this event any subprocess invocation? -/
def isProcEvent : Event → Bool
  | .runProc _ _ => true
  | _ => false

/-- Is this event a `Failed` status report? -/
def isFailedStatus : Event → Bool
  | .setStatus (.Failed _) => true
  | _ => false

/-- Number of installation-subprocess invocations in a trace. -/
def installCount (tr : Trace) : Nat := (tr.filter isInstallEvent).length

/-- Number of subprocess invocations in a trace. -/
def procCount (tr : Trace) : Nat := (tr.filter isProcEvent).length

/-- Number of filesystem metadata queries in a trace. -/
def fsMetaCount (tr : Trace) : Nat :=
  (tr.filter fun e => match e with | .fsMeta _ => true | _ => false).length

/-- Number of environment-variable reads in a trace. -/
def readEnvCount (tr : Trace) : Nat :=
  (tr.filter fun e => match e with | .readEnv _ => true | _ => false).length

/-- Does the trace report a `Failed` status? -/
def reportsFailed (tr : Trace) : Bool := tr.any isFailedStatus

/-- Total number of installation-subprocess invocations across a
sequence of `resolve()` calls. -/
def seqInstallCount (rs : List (Except String String × Trace)) : Nat :=
  (rs.map fun p => installCount p.2).sum

/-- The outcome the PATH-lookup branch of the probe extracts from the
lookup subprocess result: the trimmed first line when the process
exited 0 and that line is non-empty. -/
def pathFromLookup : SpawnResult → Option String
  | .ok output =>
    if output.status == some 0 then
      let path := whichPath output.stdout
      if path.isEmpty then none else some path
    else none
  | .err _ => none

/-! ## Concrete worlds used as test inputs -/

/-- A world where the PATH lookup finds the binary and `go` exits 0. -/
def oracleWhichOk : Oracle where
  answerProc := fun _ cmd _ =>
    if cmd = "go" then .ok { status := some 0, stdout := "", stderr := "" }
    else .ok { status := some 0, stdout := "/usr/local/bin/lx-lsp\n", stderr := "" }
  answerEnv := fun _ _ => none
  answerFs := fun _ _ => false

/-- A world where every `go` invocation exits 0 with empty output, the
PATH lookup fails to spawn, `HOME` is unset and no file exists: the
install "succeeds" but the binary can never be located. -/
def oracleGoOnly : Oracle where
  answerProc := fun _ cmd _ =>
    if cmd = "go" then .ok { status := some 0, stdout := "", stderr := "" }
    else .err "not found"
  answerEnv := fun _ _ => none
  answerFs := fun _ _ => false

/-- A world where every `go` invocation exits 0 and the PATH lookup
exits 0 but prints only whitespace; `HOME` is set and the fallback
file does not exist. -/
def oracleEmptyWhich : Oracle where
  answerProc := fun _ cmd _ =>
    if cmd = "go" then .ok { status := some 0, stdout := "", stderr := "" }
    else .ok { status := some 0, stdout := " \n", stderr := "" }
  answerEnv := fun _ _ => some "/home/u"
  answerFs := fun _ _ => false

/-- A world where the PATH lookup fails, `HOME` is unset, `go version`
exits 0 but `go install` exits 1 with stderr `"boom"`. -/
def oracleInstallFails : Oracle where
  answerProc := fun _ cmd args =>
    if cmd = "go" then
      if args = ["version"] then
        .ok { status := some 0, stdout := "go version go1.22\n", stderr := "" }
      else .ok { status := some 1, stdout := "", stderr := "boom" }
    else .err "not found"
  answerEnv := fun _ _ => none
  answerFs := fun _ _ => false

/-- A world where nothing can be spawned and `HOME` is unset. -/
def oracleNoGo : Oracle where
  answerProc := fun _ _ _ => .err "spawn failed"
  answerEnv := fun _ _ => none
  answerFs := fun _ _ => false

/-! ## Trace bookkeeping lemmas -/

theorem reportsFailed_append (a b : Trace) :
    reportsFailed (a ++ b) = (reportsFailed a || reportsFailed b) := by
  simp [reportsFailed, List.any_append]

theorem installCount_append (a b : Trace) :
    installCount (a ++ b) = installCount a + installCount b := by
  simp [installCount, List.filter_append]

theorem installCount_cons (e : Event) (l : Trace) :
    installCount (e :: l) = installCount [e] + installCount l := by
  simp [installCount, List.filter_cons]
  split <;> simp [Nat.add_comm]

theorem fsMetaCount_append (a b : Trace) :
    fsMetaCount (a ++ b) = fsMetaCount a + fsMetaCount b := by
  simp [fsMetaCount, List.filter_append]

theorem readEnvCount_append (a b : Trace) :
    readEnvCount (a ++ b) = readEnvCount a + readEnvCount b := by
  simp [readEnvCount, List.filter_append]

@[simp] theorem isInstallEvent_readEnv (n : String) :
    isInstallEvent (.readEnv n) = false := rfl

@[simp] theorem isInstallEvent_fsMeta (p : String) :
    isInstallEvent (.fsMeta p) = false := rfl

@[simp] theorem isInstallEvent_setStatus (s : Status) :
    isInstallEvent (.setStatus s) = false := rfl

@[simp] theorem isInstallEvent_which (w : Bool) :
    isInstallEvent (.runProc (which_cmd w) [get_binary_name w]) = false := by
  cases w <;> rfl

@[simp] theorem isInstallEvent_goVersion :
    isInstallEvent (.runProc "go" ["version"]) = false := rfl

@[simp] theorem isInstallEvent_goInstall :
    isInstallEvent (.runProc "go" ["install", lxPackage]) = true := by decide

@[simp] theorem isFailedStatus_runProc (c : String) (a : List String) :
    isFailedStatus (.runProc c a) = false := rfl

@[simp] theorem isFailedStatus_readEnv (n : String) :
    isFailedStatus (.readEnv n) = false := rfl

@[simp] theorem isFailedStatus_fsMeta (p : String) :
    isFailedStatus (.fsMeta p) = false := rfl

@[simp] theorem isFailedStatus_failed (m : String) :
    isFailedStatus (.setStatus (.Failed m)) = true := rfl

@[simp] theorem isFailedStatus_none :
    isFailedStatus (.setStatus .None) = false := rfl

@[simp] theorem isFailedStatus_checking :
    isFailedStatus (.setStatus .CheckingForUpdate) = false := rfl

@[simp] theorem isFailedStatus_downloading :
    isFailedStatus (.setStatus .Downloading) = false := rfl

/-! ## Lemmas about the post-install fallback check -/

theorem fallback_cases (w : Bool) (o : Oracle) (t : Nat) :
    (installLocateFallback w o t).1 = .error locate_failed_msg ∨
      ∃ h, (installLocateFallback w o t).1 = .ok (h ++ "/go/bin/" ++ get_binary_name w) := by
  unfold installLocateFallback
  dsimp only
  split
  · split
    · right; exact ⟨_, rfl⟩
    · left; rfl
  · left; rfl

theorem fallback_noStatus (w : Bool) (o : Oracle) (t : Nat) :
    reportsFailed (installLocateFallback w o t).2.2 = false := by
  unfold installLocateFallback
  dsimp only
  split
  · split <;> simp [reportsFailed]
  · simp [reportsFailed]

theorem fallback_installCount (w : Bool) (o : Oracle) (t : Nat) :
    installCount (installLocateFallback w o t).2.2 = 0 := by
  unfold installLocateFallback
  dsimp only
  split
  · split <;> simp [installCount]
  · simp [installCount]

/-! ## Lemmas about `install_language_server` -/

theorem install_err_char (w : Bool) (o : Oracle) (t : Nat) (e : String) (t' : Nat) (tr : Trace)
    (h : install_language_server w o t = (.error e, t', tr)) :
    reportsFailed tr = true ∨ e = locate_failed_msg := by
  unfold install_language_server at h
  dsimp only at h
  split at h
  · simp only [Prod.mk.injEq] at h
    obtain ⟨he, -, htr⟩ := h
    left
    subst htr
    cases he
    simp [reportsFailed]
  · split at h
    · simp only [Prod.mk.injEq] at h
      obtain ⟨he, -, htr⟩ := h
      left
      subst htr
      cases he
      simp [reportsFailed]
    · rename_i output hst
      split at h
      · rename_i e3 t3 tr3 heq
        simp only [Prod.mk.injEq] at h
        obtain ⟨he, -, -⟩ := h
        cases he
        right
        split at heq
        · split at heq
          · split at heq
            · simp only [Prod.mk.injEq] at heq
              exact (Except.error.inj heq.1).symm
            · simp at heq
          · rcases hfb : installLocateFallback w o (t + 1 + 1) with ⟨r, tf, trf⟩
            rw [hfb] at heq
            dsimp only at heq
            simp only [Prod.mk.injEq] at heq
            rcases fallback_cases w o (t + 1 + 1) with hc | ⟨hh, hc⟩ <;>
              rw [hfb] at hc <;> dsimp at hc <;> subst hc
            · exact (Except.error.inj heq.1).symm
            · cases heq.1
        · rcases hfb : installLocateFallback w o (t + 1 + 1) with ⟨r, tf, trf⟩
          rw [hfb] at heq
          dsimp only at heq
          simp only [Prod.mk.injEq] at heq
          rcases fallback_cases w o (t + 1 + 1) with hc | ⟨hh, hc⟩ <;>
            rw [hfb] at hc <;> dsimp at hc <;> subst hc
          · exact (Except.error.inj heq.1).symm
          · cases heq.1
      · simp only [Prod.mk.injEq] at h
        obtain ⟨he, -, -⟩ := h
        cases he

theorem install_installCount (w : Bool) (o : Oracle) (t : Nat) :
    installCount (install_language_server w o t).2.2 = 1 := by
  unfold install_language_server
  dsimp only
  split
  · simp [installCount]
  · split
    · simp [installCount]
    · split
      · rename_i e3 t3 tr3 heq
        split at heq
        · split at heq
          · split at heq <;> simp only [Prod.mk.injEq] at heq <;>
              rcases heq with ⟨-, -, htr⟩ <;> subst htr <;>
              simp [installCount_append, installCount]
          · rcases hfb : installLocateFallback w o (t + 1 + 1) with ⟨r, tf, trf⟩
            rw [hfb] at heq
            dsimp only at heq
            simp only [Prod.mk.injEq] at heq
            rcases heq with ⟨-, -, htr⟩
            subst htr
            have := fallback_installCount w o (t + 1 + 1)
            rw [hfb] at this
            dsimp at this
            simp only [installCount_append, this]
            simp [installCount]
        · rcases hfb : installLocateFallback w o (t + 1 + 1) with ⟨r, tf, trf⟩
          rw [hfb] at heq
          dsimp only at heq
          simp only [Prod.mk.injEq] at heq
          rcases heq with ⟨-, -, htr⟩
          subst htr
          have := fallback_installCount w o (t + 1 + 1)
          rw [hfb] at this
          dsimp at this
          simp only [installCount_append, this]
          simp [installCount]
      · rename_i bp t3 tr3 heq
        split at heq
        · split at heq
          · split at heq <;> simp only [Prod.mk.injEq] at heq <;>
              rcases heq with ⟨-, -, htr⟩ <;> subst htr <;>
              simp [installCount_append, installCount]
          · rcases hfb : installLocateFallback w o (t + 1 + 1) with ⟨r, tf, trf⟩
            rw [hfb] at heq
            dsimp only at heq
            simp only [Prod.mk.injEq] at heq
            rcases heq with ⟨-, -, htr⟩
            subst htr
            have := fallback_installCount w o (t + 1 + 1)
            rw [hfb] at this
            dsimp at this
            simp only [installCount_append, this]
            simp [installCount]
        · rcases hfb : installLocateFallback w o (t + 1 + 1) with ⟨r, tf, trf⟩
          rw [hfb] at heq
          dsimp only at heq
          simp only [Prod.mk.injEq] at heq
          rcases heq with ⟨-, -, htr⟩
          subst htr
          have := fallback_installCount w o (t + 1 + 1)
          rw [hfb] at this
          dsimp at this
          simp only [installCount_append, this]
          simp [installCount]

/-! ## Lemmas about `find_existing_binary` and `check_go_available` -/

theorem find_installCount (w : Bool) (o : Oracle) (t : Nat) :
    installCount (find_existing_binary w o t).2.2 = 0 := by
  unfold find_existing_binary
  dsimp only
  split
  · simp [installCount]
  · split
    · split <;> simp [installCount]
    · simp [installCount]

theorem find_noStatus (w : Bool) (o : Oracle) (t : Nat) :
    reportsFailed (find_existing_binary w o t).2.2 = false := by
  unfold find_existing_binary
  dsimp only
  split
  · simp [reportsFailed]
  · split
    · split <;> simp [reportsFailed]
    · simp [reportsFailed]

theorem check_go_trace (o : Oracle) (t : Nat) :
    (check_go_available o t).2.2 = [Event.runProc "go" ["version"]] := by
  unfold check_go_available
  dsimp only
  split <;> rfl

/-! ## Lemmas about `language_server_binary_path` -/

theorem resolve_cached (w : Bool) (o : Oracle) (ext : LxExtension) (t : Nat)
    (p : String) (hc : ext.cached_binary_path = some p) :
    language_server_binary_path w o ext t = (.ok p, ext, t, []) := by
  unfold language_server_binary_path
  rw [hc]

theorem resolve_err_ext (w : Bool) (o : Oracle) (ext : LxExtension) (t : Nat)
    (e : String) (ext' : LxExtension) (t' : Nat) (tr : Trace)
    (h : language_server_binary_path w o ext t = (.error e, ext', t', tr)) :
    ext' = ext ∧ ext.cached_binary_path = none := by
  unfold language_server_binary_path at h
  split at h
  · simp only [Prod.mk.injEq] at h
    exact absurd h.1 (by simp)
  · rename_i hnone
    dsimp only at h
    rcases hF : find_existing_binary w o t with ⟨existing, t1, trF⟩
    rw [hF] at h
    dsimp only at h
    split at h
    · simp only [Prod.mk.injEq] at h
      exact absurd h.1 (by simp)
    · rcases hG : check_go_available o t1 with ⟨goOk, t2, trG⟩
      rw [hG] at h
      dsimp only at h
      split at h
      · simp only [Prod.mk.injEq] at h
        exact ⟨h.2.1.symm, hnone⟩
      · rcases hI : install_language_server w o t2 with ⟨r, t3, trI⟩
        rw [hI] at h
        dsimp only at h
        split at h
        · simp only [Prod.mk.injEq] at h
          exact ⟨h.2.1.symm, hnone⟩
        · simp only [Prod.mk.injEq] at h
          exact absurd h.1 (by simp)

theorem resolve_ok_cache (w : Bool) (o : Oracle) (ext : LxExtension) (t : Nat)
    (p : String) (ext' : LxExtension) (t' : Nat) (tr : Trace)
    (h : language_server_binary_path w o ext t = (.ok p, ext', t', tr)) :
    ext'.cached_binary_path = some p := by
  unfold language_server_binary_path at h
  split at h
  · rename_i q hc
    simp only [Prod.mk.injEq] at h
    obtain ⟨hq, hext, -, -⟩ := h
    cases hq
    rw [← hext]
    exact hc
  · dsimp only at h
    rcases hF : find_existing_binary w o t with ⟨existing, t1, trF⟩
    rw [hF] at h
    dsimp only at h
    split at h
    · simp only [Prod.mk.injEq] at h
      obtain ⟨hq, hext, -, -⟩ := h
      cases hq
      rw [← hext]
    · rcases hG : check_go_available o t1 with ⟨goOk, t2, trG⟩
      rw [hG] at h
      dsimp only at h
      split at h
      · simp only [Prod.mk.injEq] at h
        exact absurd h.1 (by simp)
      · rcases hI : install_language_server w o t2 with ⟨r, t3, trI⟩
        rw [hI] at h
        dsimp only at h
        split at h
        · simp only [Prod.mk.injEq] at h
          exact absurd h.1 (by simp)
        · simp only [Prod.mk.injEq] at h
          obtain ⟨hq, hext, -, -⟩ := h
          cases hq
          rw [← hext]

theorem resolve_trace_installCount (w : Bool) (o : Oracle) (ext : LxExtension) (t : Nat)
    (r : Except String String) (ext' : LxExtension) (t' : Nat) (tr : Trace)
    (h : language_server_binary_path w o ext t = (r, ext', t', tr)) :
    installCount tr ≤ 1 := by
  unfold language_server_binary_path at h
  split at h
  · simp only [Prod.mk.injEq] at h
    obtain ⟨-, -, -, htr⟩ := h
    subst htr
    simp [installCount]
  · dsimp only at h
    rcases hF : find_existing_binary w o t with ⟨existing, t1, trF⟩
    rw [hF] at h
    dsimp only at h
    have hFc : installCount trF = 0 := by
      have := find_installCount w o t
      rw [hF] at this
      exact this
    split at h
    · simp only [Prod.mk.injEq] at h
      obtain ⟨-, -, -, htr⟩ := h
      subst htr
      simp only [installCount_append, hFc]
      simp [installCount]
    · rcases hG : check_go_available o t1 with ⟨goOk, t2, trG⟩
      rw [hG] at h
      dsimp only at h
      have hGt : trG = [Event.runProc "go" ["version"]] := by
        have := check_go_trace o t1
        rw [hG] at this
        exact this
      split at h
      · simp only [Prod.mk.injEq] at h
        obtain ⟨-, -, -, htr⟩ := h
        subst htr
        subst hGt
        simp only [installCount_append, hFc]
        simp [installCount]
      · rcases hI : install_language_server w o t2 with ⟨ir, t3, trI⟩
        rw [hI] at h
        dsimp only at h
        have hIc : installCount trI = 1 := by
          have := install_installCount w o t2
          rw [hI] at this
          exact this
        split at h <;>
          simp only [Prod.mk.injEq] at h <;>
          obtain ⟨-, -, -, htr⟩ := h <;>
          subst htr <;>
          subst hGt <;>
          simp only [installCount_append, hFc, hIc] <;>
          simp [installCount]

theorem resolve_err_failed_or_locate (w : Bool) (o : Oracle) (ext : LxExtension) (t : Nat)
    (e : String) (ext' : LxExtension) (t' : Nat) (tr : Trace)
    (h : language_server_binary_path w o ext t = (.error e, ext', t', tr)) :
    reportsFailed tr = true ∨ e = locate_failed_msg := by
  unfold language_server_binary_path at h
  split at h
  · simp only [Prod.mk.injEq] at h
    exact absurd h.1 (by simp)
  · dsimp only at h
    rcases hF : find_existing_binary w o t with ⟨existing, t1, trF⟩
    rw [hF] at h
    dsimp only at h
    split at h
    · simp only [Prod.mk.injEq] at h
      exact absurd h.1 (by simp)
    · rcases hG : check_go_available o t1 with ⟨goOk, t2, trG⟩
      rw [hG] at h
      dsimp only at h
      split at h
      · simp only [Prod.mk.injEq] at h
        obtain ⟨-, -, -, htr⟩ := h
        subst htr
        left
        simp [reportsFailed_append, reportsFailed]
      · rcases hI : install_language_server w o t2 with ⟨ir, t3, trI⟩
        rw [hI] at h
        dsimp only at h
        split at h
        · rename_i e3
          simp only [Prod.mk.injEq] at h
          obtain ⟨he, -, -, htr⟩ := h
          cases he
          subst htr
          rcases install_err_char w o t2 e t3 trI hI with hfail | hloc
          · left
            simp only [reportsFailed] at hfail ⊢
            simp [List.any_append, hfail]
          · right
            exact hloc
        · simp only [Prod.mk.injEq] at h
          exact absurd h.1 (by simp)

theorem seqInstallCount_cons (x : Except String String × Trace)
    (rs : List (Except String String × Trace)) :
    seqInstallCount (x :: rs) = installCount x.2 + seqInstallCount rs := by
  simp [seqInstallCount]

theorem resolveSeq_cached_installCount (w : Bool) (os : List Oracle) (p : String) :
    seqInstallCount (resolveSeq w os { cached_binary_path := some p }).1 = 0 := by
  induction os with
  | nil => simp [resolveSeq, seqInstallCount]
  | cons o os ih =>
    unfold resolveSeq
    rw [resolve_cached w o { cached_binary_path := some p } 0 p rfl]
    dsimp only
    rcases hS : resolveSeq w os { cached_binary_path := some p } with ⟨rest, extF⟩
    rw [hS] at ih
    dsimp only at ih ⊢
    rw [seqInstallCount_cons, ih]
    simp [installCount]

theorem check_go_false (o : Oracle) (t : Nat)
    (hgo : (∃ m, o.answerProc t "go" ["version"] = .err m) ∨
      (∃ out c, o.answerProc t "go" ["version"] = .ok out ∧
        out.status = some c ∧ c ≠ 0)) :
    (check_go_available o t).1 = false := by
  unfold check_go_available
  dsimp only
  rcases hgo with ⟨m, hm⟩ | ⟨out, c, hout, hst, hc⟩
  · rw [hm]
  · rw [hout]
    dsimp only
    rw [hst]
    simp [hc]

theorem resolve_uncached_trace (w : Bool) (o : Oracle) (ext : LxExtension) (t : Nat)
    (hc : ext.cached_binary_path = none) :
    ∃ rest, (language_server_binary_path w o ext t).2.2.2 =
      Event.setStatus Status.CheckingForUpdate :: rest := by
  unfold language_server_binary_path
  rw [hc]
  dsimp only
  rcases hF : find_existing_binary w o t with ⟨existing, t1, trF⟩
  dsimp only
  split
  · exact ⟨_, rfl⟩
  · rcases hG : check_go_available o t1 with ⟨goOk, t2, trG⟩
    dsimp only
    split
    · exact ⟨_, rfl⟩
    · rcases hI : install_language_server w o t2 with ⟨r, t3, trI⟩
      dsimp only
      split
      · exact ⟨_, rfl⟩
      · exact ⟨_, rfl⟩

/-! ## Claims -/

/-- C1 counterexample: in a world where every `go` invocation exits 0
but the PATH lookup never spawns, `HOME` is unset and no file exists,
`resolve()` returns the post-install not-locatable error without ever
reporting a `Failed` status to the sink. -/
theorem C1_counterexample :
    (language_server_binary_path false oracleGoOnly LxExtension.new 0).1 =
        .error locate_failed_msg ∧
      reportsFailed
          (language_server_binary_path false oracleGoOnly LxExtension.new 0).2.2.2 =
        false :=
  ⟨rfl, rfl⟩

/-- C1 (amended): whenever `language_server_binary_path` returns an
error, either a `Failed` status was reported to the sink during the
call, or the error is the post-install not-locatable message — the
`ToolchainMissing` and `InstallFailed` paths always report `Failed`,
but the three post-install not-locatable returns never do. -/
theorem C1_amended_failed_status (w : Bool) (o : Oracle) (ext : LxExtension) (t : Nat)
    (e : String) (ext' : LxExtension) (t' : Nat) (tr : Trace)
    (h : language_server_binary_path w o ext t = (.error e, ext', t', tr)) :
    reportsFailed tr = true ∨ e = locate_failed_msg :=
  resolve_err_failed_or_locate w o ext t e ext' t' tr h

/-- C1 witness: the amended claim applied to a world where nothing can
be spawned: the toolchain-missing failure reports a `Failed` status. -/
theorem C1_amended_witness :
    reportsFailed
        [Event.setStatus Status.CheckingForUpdate,
         Event.runProc "which" ["lx-lsp"],
         Event.readEnv "HOME",
         Event.runProc "go" ["version"],
         Event.setStatus (Status.Failed toolchain_missing_msg)] = true ∨
      toolchain_missing_msg = locate_failed_msg :=
  C1_amended_failed_status false oracleNoGo LxExtension.new 0
    toolchain_missing_msg LxExtension.new 3 _ rfl

/-- C2 counterexample: the post-install locate inside
`install_language_server`, facing a PATH lookup that exits 0 with
whitespace-only output, returns the not-locatable error immediately:
the trace contains no `HOME` read and no filesystem check even though
`HOME` is set. -/
theorem C2_counterexample :
    oracleEmptyWhich.answerProc 3 "which" ["lx-lsp"] =
        .ok { status := some 0, stdout := " \n", stderr := "" } ∧
      whichPath " \n" = "" ∧
      oracleEmptyWhich.answerEnv 4 "HOME" = some "/home/u" ∧
      install_language_server false oracleEmptyWhich 2 =
        (.error locate_failed_msg, 4,
          [Event.setStatus Status.Downloading,
           Event.runProc "go" ["install", lxPackage],
           Event.runProc "which" ["lx-lsp"]]) :=
  ⟨rfl, rfl, rfl, rfl⟩

theorem pathFromLookup_empty (out : ProcOutput) (hst : out.status = some 0)
    (hemp : (whichPath out.stdout).isEmpty = true) :
    pathFromLookup (.ok out) = none := by
  unfold pathFromLookup
  dsimp only
  rw [hst]
  simp [hemp]

theorem find_fallback (w : Bool) (o : Oracle) (t : Nat)
    (hpl : pathFromLookup (o.answerProc t (which_cmd w) [get_binary_name w]) = none) :
    find_existing_binary w o t =
      match o.answerEnv (t + 1) "HOME" with
      | some h =>
        if o.answerFs (t + 2) (h ++ "/go/bin/" ++ get_binary_name w) then
          (some (h ++ "/go/bin/" ++ get_binary_name w), t + 3,
            [Event.runProc (which_cmd w) [get_binary_name w], Event.readEnv "HOME",
              Event.fsMeta (h ++ "/go/bin/" ++ get_binary_name w)])
        else
          (none, t + 3,
            [Event.runProc (which_cmd w) [get_binary_name w], Event.readEnv "HOME",
              Event.fsMeta (h ++ "/go/bin/" ++ get_binary_name w)])
      | none =>
        (none, t + 2,
          [Event.runProc (which_cmd w) [get_binary_name w], Event.readEnv "HOME"]) := by
  unfold find_existing_binary
  dsimp only
  rcases hwr : o.answerProc t (which_cmd w) [get_binary_name w] with out | m
  · rw [hwr] at hpl
    unfold pathFromLookup at hpl
    dsimp only at hpl
    split at hpl
    · rename_i hc
      split at hpl
      · rename_i hd
        simp only [hc, hd]
        rfl
      · cases hpl
    · rename_i hc
      rw [Bool.not_eq_true] at hc
      simp only [hc]
      rfl
  · rfl

theorem install_empty_which (w : Bool) (o : Oracle) (s : Nat) (iout out2 : ProcOutput)
    (hi : o.answerProc s "go" ["install", lxPackage] = .ok iout)
    (hist : iout.status = some 0)
    (hw2 : o.answerProc (s + 1) (which_cmd w) [get_binary_name w] = .ok out2)
    (hst2 : out2.status = some 0)
    (hemp2 : (whichPath out2.stdout).isEmpty = true) :
    install_language_server w o s =
      (.error locate_failed_msg, s + 2,
        [Event.setStatus Status.Downloading,
         Event.runProc "go" ["install", lxPackage],
         Event.runProc (which_cmd w) [get_binary_name w]]) := by
  unfold install_language_server
  dsimp only
  rw [hi]
  dsimp only
  rw [hist]
  simp only [bne_self_eq_false]
  rw [hw2]
  dsimp only
  rw [hst2]
  simp only [beq_self_eq_true, hemp2]
  rfl

/-- C2 (amended): a PATH lookup that exits 0 with whitespace-only
output is treated as not found in both probes, but only
`find_existing_binary` then performs the `$HOME/go/bin` fallback check
(and reports not-found only when that check also failed); the
post-install locate inside `install_language_server` instead returns
the not-locatable error immediately, without the fallback check. -/
theorem C2_amended_empty_output (w : Bool) (o : Oracle) (t s : Nat)
    (out iout out2 : ProcOutput)
    (hw : o.answerProc t (which_cmd w) [get_binary_name w] = .ok out)
    (hst : out.status = some 0)
    (hemp : (whichPath out.stdout).isEmpty = true)
    (hi : o.answerProc s "go" ["install", lxPackage] = .ok iout)
    (hist : iout.status = some 0)
    (hw2 : o.answerProc (s + 1) (which_cmd w) [get_binary_name w] = .ok out2)
    (hst2 : out2.status = some 0)
    (hemp2 : (whichPath out2.stdout).isEmpty = true) :
    (readEnvCount (find_existing_binary w o t).2.2 = 1 ∧
      ((find_existing_binary w o t).1 = none →
        o.answerEnv (t + 1) "HOME" = none ∨
          ∃ h, o.answerEnv (t + 1) "HOME" = some h ∧
            o.answerFs (t + 2) (h ++ "/go/bin/" ++ get_binary_name w) = false)) ∧
      install_language_server w o s =
        (.error locate_failed_msg, s + 2,
          [Event.setStatus Status.Downloading,
           Event.runProc "go" ["install", lxPackage],
           Event.runProc (which_cmd w) [get_binary_name w]]) := by
  have hpl : pathFromLookup (o.answerProc t (which_cmd w) [get_binary_name w]) = none := by
    rw [hw]
    exact pathFromLookup_empty out hst hemp
  rw [find_fallback w o t hpl]
  refine ⟨⟨?_, ?_⟩, install_empty_which w o s iout out2 hi hist hw2 hst2 hemp2⟩
  · rcases hh : o.answerEnv (t + 1) "HOME" with _ | h
    · simp [readEnvCount]
    · dsimp only
      split <;> simp [readEnvCount]
  · rcases hh : o.answerEnv (t + 1) "HOME" with _ | h
    · intro _
      left
      rfl
    · dsimp only
      split
      · rename_i hfs
        intro hcontra
        cases hcontra
      · rename_i hfs
        intro _
        right
        exact ⟨h, rfl, by simpa using hfs⟩

/-- C2 witness: the amended claim applied to a world where both
lookups exit 0 with whitespace output, `HOME` is `/home/u` and the
fallback file does not exist. -/
theorem C2_amended_witness :
    ((readEnvCount (find_existing_binary false oracleEmptyWhich 0).2.2 = 1 ∧
      ((find_existing_binary false oracleEmptyWhich 0).1 = none →
        oracleEmptyWhich.answerEnv 1 "HOME" = none ∨
          ∃ h, oracleEmptyWhich.answerEnv 1 "HOME" = some h ∧
            oracleEmptyWhich.answerFs 2 (h ++ "/go/bin/" ++ get_binary_name false) = false)) ∧
      install_language_server false oracleEmptyWhich 5 =
        (.error locate_failed_msg, 7,
          [Event.setStatus Status.Downloading,
           Event.runProc "go" ["install", lxPackage],
           Event.runProc (which_cmd false) [get_binary_name false]])) :=
  C2_amended_empty_output false oracleEmptyWhich 0 5
    { status := some 0, stdout := " \n", stderr := "" }
    { status := some 0, stdout := "", stderr := "" }
    { status := some 0, stdout := " \n", stderr := "" }
    rfl rfl (by decide) rfl rfl rfl rfl (by decide)

/-- C3 counterexample: in a world where the probe fails and `go install`
always exits 1, two consecutive `resolve()` calls on one instance both
invoke the installation subprocess, so the total is not at most one. -/
theorem C3_counterexample :
    ¬ (seqInstallCount
        (resolveSeq false [oracleInstallFails, oracleInstallFails] LxExtension.new).1 ≤ 1) := by
  decide

/-- C3 (amended): the installation subprocess is invoked at most once
per `resolve()` call, and once the cache is populated (as it is after
any successful call) no subsequent call on the same instance invokes
it at all; after failed calls, however, a later call may run the
installer again. -/
theorem C3_amended_install_once (w : Bool) (o : Oracle) (ext : LxExtension) (t : Nat)
    (os : List Oracle) (p : String) :
    installCount (language_server_binary_path w o ext t).2.2.2 ≤ 1 ∧
      seqInstallCount (resolveSeq w os { cached_binary_path := some p }).1 = 0 := by
  constructor
  · rcases hR : language_server_binary_path w o ext t with ⟨r, e1, t1, tr⟩
    have := resolve_trace_installCount w o ext t r e1 t1 tr hR
    exact this
  · exact resolveSeq_cached_installCount w os p

/-- C4: a successful `resolve()` populates the cache with the returned
path, and any later call on the resulting state returns that same path
with an empty trace (zero subprocess invocations). -/
theorem C4_cache_idempotence (w : Bool) (o o2 : Oracle) (ext : LxExtension) (t t2 : Nat)
    (p : String) (ext' : LxExtension) (t' : Nat) (tr : Trace)
    (h : language_server_binary_path w o ext t = (.ok p, ext', t', tr)) :
    ext'.cached_binary_path = some p ∧
      language_server_binary_path w o2 ext' t2 = (.ok p, ext', t2, []) := by
  have hc := resolve_ok_cache w o ext t p ext' t' tr h
  exact ⟨hc, resolve_cached w o2 ext' t2 p hc⟩

/-- C4 witness: after a first resolution that finds
`/usr/local/bin/lx-lsp` on PATH, a later call in a hostile world
returns the cached path with an empty trace. -/
theorem C4_witness :
    ({ cached_binary_path := some "/usr/local/bin/lx-lsp" } : LxExtension).cached_binary_path =
        some "/usr/local/bin/lx-lsp" ∧
      language_server_binary_path false oracleGoOnly
          { cached_binary_path := some "/usr/local/bin/lx-lsp" } 7 =
        (.ok "/usr/local/bin/lx-lsp",
          { cached_binary_path := some "/usr/local/bin/lx-lsp" }, 7, []) :=
  C4_cache_idempotence false oracleWhichOk oracleGoOnly LxExtension.new 0 7
    "/usr/local/bin/lx-lsp" { cached_binary_path := some "/usr/local/bin/lx-lsp" } 1
    [Event.setStatus Status.CheckingForUpdate, Event.runProc "which" ["lx-lsp"],
      Event.setStatus Status.None]
    rfl

/-- C5: a failed `resolve()` leaves the extension state unchanged with
an empty cache, so the next call re-runs the whole sequence beginning
with the `CheckingForUpdate` status emission. -/
theorem C5_error_leaves_cache (w : Bool) (o o2 : Oracle) (ext : LxExtension) (t t2 : Nat)
    (e : String) (ext' : LxExtension) (t' : Nat) (tr : Trace)
    (h : language_server_binary_path w o ext t = (.error e, ext', t', tr)) :
    ext' = ext ∧ ext'.cached_binary_path = none ∧
      ∃ rest, (language_server_binary_path w o2 ext' t2).2.2.2 =
        Event.setStatus Status.CheckingForUpdate :: rest := by
  obtain ⟨hee, hnone⟩ := resolve_err_ext w o ext t e ext' t' tr h
  subst hee
  exact ⟨rfl, hnone, resolve_uncached_trace w o2 ext' t2 hnone⟩

/-- C5 witness: after the toolchain-missing failure in a world where
nothing spawns, the state is unchanged and the next call starts with
`CheckingForUpdate`. -/
theorem C5_witness :
    LxExtension.new = LxExtension.new ∧
      LxExtension.new.cached_binary_path = none ∧
      ∃ rest, (language_server_binary_path false oracleNoGo LxExtension.new 5).2.2.2 =
        Event.setStatus Status.CheckingForUpdate :: rest :=
  C5_error_leaves_cache false oracleNoGo oracleNoGo LxExtension.new 0 5
    toolchain_missing_msg LxExtension.new 3
    [Event.setStatus Status.CheckingForUpdate, Event.runProc "which" ["lx-lsp"],
      Event.readEnv "HOME", Event.runProc "go" ["version"],
      Event.setStatus (Status.Failed toolchain_missing_msg)]
    rfl

/-- C6: when the probe finds nothing and the `go version` subprocess
fails to spawn or exits with a non-zero code, `resolve()` returns the
toolchain-missing error and the trace contains no invocation of the
installation subprocess. -/
theorem C6_no_toolchain_no_install (w : Bool) (o : Oracle) (ext : LxExtension) (t : Nat)
    (hcache : ext.cached_binary_path = none)
    (hprobe : (find_existing_binary w o t).1 = none)
    (hgo : (∃ m, o.answerProc (find_existing_binary w o t).2.1 "go" ["version"] = .err m) ∨
      (∃ out c, o.answerProc (find_existing_binary w o t).2.1 "go" ["version"] = .ok out ∧
        out.status = some c ∧ c ≠ 0)) :
    (language_server_binary_path w o ext t).1 = .error toolchain_missing_msg ∧
      installCount (language_server_binary_path w o ext t).2.2.2 = 0 := by
  unfold language_server_binary_path
  rw [hcache]
  dsimp only
  rcases hF : find_existing_binary w o t with ⟨existing, t1, trF⟩
  rw [hF] at hprobe hgo
  dsimp only at hprobe hgo
  subst hprobe
  dsimp only
  rcases hG : check_go_available o t1 with ⟨goOk, t2, trG⟩
  have hfalse : goOk = false := by
    have := check_go_false o t1 hgo
    rw [hG] at this
    exact this
  subst hfalse
  dsimp only
  have hFc : installCount trF = 0 := by
    have := find_installCount w o t
    rw [hF] at this
    exact this
  have hGt : trG = [Event.runProc "go" ["version"]] := by
    have := check_go_trace o t1
    rw [hG] at this
    exact this
  subst hGt
  constructor
  · rfl
  · dsimp only
    simp only [Bool.not_false, if_true]
    simp only [installCount_append, hFc]
    rfl

/-- C6 witness: the theorem applied to the world where nothing can be
spawned. -/
theorem C6_witness :
    (language_server_binary_path false oracleNoGo LxExtension.new 0).1 =
        .error toolchain_missing_msg ∧
      installCount (language_server_binary_path false oracleNoGo LxExtension.new 0).2.2.2 = 0 :=
  C6_no_toolchain_no_install false oracleNoGo LxExtension.new 0 rfl rfl
    (Or.inl ⟨"spawn failed", rfl⟩)

/-- C7: when `go install` runs and exits non-zero, the error returned
by `install_language_server` and the `Failed` status message reported
to the sink are the same string, which contains the captured stderr
verbatim as its suffix. -/
theorem C7_install_failure_stderr (w : Bool) (o : Oracle) (t : Nat) (out : ProcOutput) (c : Int)
    (h : o.answerProc t "go" ["install", lxPackage] = .ok out)
    (hst : out.status = some c) (hc : c ≠ 0) :
    install_language_server w o t =
      (.error ("Failed to install lx-lsp. Error: " ++ out.stderr), t + 1,
        [Event.setStatus Status.Downloading,
         Event.runProc "go" ["install", lxPackage],
         Event.setStatus (Status.Failed ("Failed to install lx-lsp. Error: " ++ out.stderr))]) := by
  unfold install_language_server
  dsimp only
  rw [h]
  dsimp only
  have hbne : (out.status != some 0) = true := by
    rw [hst]
    simp [hc]
  rw [hbne]
  rfl

/-- C7 witness: the theorem applied to a world where `go install`
exits 1 with stderr `"boom"`. -/
theorem C7_witness :
    install_language_server false oracleInstallFails 0 =
      (.error ("Failed to install lx-lsp. Error: " ++ "boom"), 1,
        [Event.setStatus Status.Downloading,
         Event.runProc "go" ["install", lxPackage],
         Event.setStatus (Status.Failed ("Failed to install lx-lsp. Error: " ++ "boom"))]) :=
  C7_install_failure_stderr false oracleInstallFails 0
    { status := some 1, stdout := "", stderr := "boom" } 1 rfl rfl (by decide)

/-- C8: in both probes, a PATH lookup that exits 0 with a non-empty
trimmed first line short-circuits the fallback check: the probe
returns the PATH-lookup result and performs no `HOME` read and no
filesystem query, whatever the state of the fallback directory. -/
theorem C8_path_wins (w : Bool) (o : Oracle) (t s : Nat) (out iout out2 : ProcOutput)
    (hw : o.answerProc t (which_cmd w) [get_binary_name w] = .ok out)
    (hst : out.status = some 0)
    (hne : (whichPath out.stdout).isEmpty = false)
    (hi : o.answerProc s "go" ["install", lxPackage] = .ok iout)
    (hist : iout.status = some 0)
    (hw2 : o.answerProc (s + 1) (which_cmd w) [get_binary_name w] = .ok out2)
    (hst2 : out2.status = some 0)
    (hne2 : (whichPath out2.stdout).isEmpty = false) :
    find_existing_binary w o t =
        (some (whichPath out.stdout), t + 1,
          [Event.runProc (which_cmd w) [get_binary_name w]]) ∧
      install_language_server w o s =
        (.ok (whichPath out2.stdout), s + 2,
          [Event.setStatus Status.Downloading,
           Event.runProc "go" ["install", lxPackage],
           Event.runProc (which_cmd w) [get_binary_name w],
           Event.setStatus Status.None]) := by
  constructor
  · unfold find_existing_binary
    dsimp only
    rw [hw]
    dsimp only
    rw [hst]
    simp only [beq_self_eq_true, hne]
    rfl
  · unfold install_language_server
    dsimp only
    rw [hi]
    dsimp only
    rw [hist]
    simp only [bne_self_eq_false]
    rw [hw2]
    dsimp only
    rw [hst2]
    simp only [beq_self_eq_true, hne2]
    rfl

/-- C8 witness: the theorem applied to a world where the PATH lookup
prints `/usr/local/bin/lx-lsp`. -/
theorem C8_witness :
    find_existing_binary false oracleWhichOk 0 =
        (some "/usr/local/bin/lx-lsp", 1, [Event.runProc "which" ["lx-lsp"]]) ∧
      install_language_server false oracleWhichOk 5 =
        (.ok "/usr/local/bin/lx-lsp", 7,
          [Event.setStatus Status.Downloading,
           Event.runProc "go" ["install", lxPackage],
           Event.runProc "which" ["lx-lsp"],
           Event.setStatus Status.None]) :=
  C8_path_wins false oracleWhichOk 0 5
    { status := some 0, stdout := "/usr/local/bin/lx-lsp\n", stderr := "" }
    { status := some 0, stdout := "", stderr := "" }
    { status := some 0, stdout := "/usr/local/bin/lx-lsp\n", stderr := "" }
    rfl rfl (by decide) rfl rfl rfl rfl (by decide)

/-- C9: every successful `language_server_command` produces a launch
command with an empty argument list and the default (empty)
environment map: the worktree environment is not inherited. -/
theorem C9_empty_args_env (w : Bool) (o : Oracle) (ext : LxExtension) (t : Nat)
    (cmd : ZedCommand) (ext' : LxExtension) (t' : Nat) (tr : Trace)
    (h : language_server_command w o ext t = (.ok cmd, ext', t', tr)) :
    cmd.args = [] ∧ cmd.env = [] := by
  unfold language_server_command at h
  rcases hR : language_server_binary_path w o ext t with ⟨r, e1, t1, tr1⟩
  rw [hR] at h
  split at h
  · simp only [Prod.mk.injEq] at h
    exact absurd h.1 (by simp)
  · simp only [Prod.mk.injEq] at h
    obtain ⟨hcmd, -, -, -⟩ := h
    cases Except.ok.inj hcmd
    exact ⟨rfl, rfl⟩

/-- C9 witness: the theorem applied to a world where the PATH lookup
succeeds immediately. -/
theorem C9_witness :
    ({ command := "/usr/local/bin/lx-lsp", args := [], env := [] } : ZedCommand).args = [] ∧
      ({ command := "/usr/local/bin/lx-lsp", args := [], env := [] } : ZedCommand).env = [] :=
  C9_empty_args_env false oracleWhichOk LxExtension.new 0
    { command := "/usr/local/bin/lx-lsp", args := [], env := [] }
    { cached_binary_path := some "/usr/local/bin/lx-lsp" } 1
    [Event.setStatus Status.CheckingForUpdate, Event.runProc "which" ["lx-lsp"],
      Event.setStatus Status.None]
    rfl

theorem install_notlocatable_home_none (w : Bool) (o : Oracle) (s : Nat) (iout : ProcOutput)
    (hi : o.answerProc s "go" ["install", lxPackage] = .ok iout)
    (hist : iout.status = some 0)
    (hpl2 : pathFromLookup (o.answerProc (s + 1) (which_cmd w) [get_binary_name w]) = none)
    (hhome : o.answerEnv (s + 2) "HOME" = none) :
    (install_language_server w o s).1 = .error locate_failed_msg ∧
      fsMetaCount (install_language_server w o s).2.2 = 0 := by
  unfold install_language_server
  dsimp only
  rw [hi]
  dsimp only
  rw [hist]
  simp only [bne_self_eq_false]
  rcases hwr : o.answerProc (s + 1) (which_cmd w) [get_binary_name w] with out2 | m
  · rw [hwr] at hpl2
    unfold pathFromLookup at hpl2
    dsimp only at hpl2
    split at hpl2
    · rename_i hc
      split at hpl2
      · rename_i hd
        simp only [hc, hd]
        exact ⟨rfl, rfl⟩
      · cases hpl2
    · rename_i hc
      rw [Bool.not_eq_true] at hc
      simp only [hc]
      unfold installLocateFallback
      dsimp only
      rw [hhome]
      exact ⟨rfl, rfl⟩
  · unfold installLocateFallback
    dsimp only
    rw [hhome]
    exact ⟨rfl, rfl⟩

/-- C10: when `HOME` is unset, the fallback-directory check is skipped
entirely (no filesystem metadata query appears in either trace); with
the PATH lookup also failing, `find_existing_binary` returns `none`
after just the lookup and the `HOME` read, and the post-install locate
in `install_language_server` returns the not-locatable error. -/
theorem C10_home_unset (w : Bool) (o : Oracle) (t s : Nat) (iout : ProcOutput)
    (hhome : ∀ n, o.answerEnv n "HOME" = none)
    (hpl : pathFromLookup (o.answerProc t (which_cmd w) [get_binary_name w]) = none)
    (hi : o.answerProc s "go" ["install", lxPackage] = .ok iout)
    (hist : iout.status = some 0)
    (hpl2 : pathFromLookup (o.answerProc (s + 1) (which_cmd w) [get_binary_name w]) = none) :
    find_existing_binary w o t =
        (none, t + 2,
          [Event.runProc (which_cmd w) [get_binary_name w], Event.readEnv "HOME"]) ∧
      fsMetaCount (find_existing_binary w o t).2.2 = 0 ∧
      (install_language_server w o s).1 = .error locate_failed_msg ∧
      fsMetaCount (install_language_server w o s).2.2 = 0 := by
  have hfind := find_fallback w o t hpl
  rw [hhome (t + 1)] at hfind
  obtain ⟨h1, h2⟩ := install_notlocatable_home_none w o s iout hi hist hpl2 (hhome (s + 2))
  refine ⟨hfind, ?_, h1, h2⟩
  rw [hfind]
  rfl

/-- C10 witness: the theorem applied to a world where `HOME` is unset,
the PATH lookup never spawns and `go install` exits 0. -/
theorem C10_witness :
    find_existing_binary false oracleGoOnly 0 =
        (none, 2, [Event.runProc "which" ["lx-lsp"], Event.readEnv "HOME"]) ∧
      fsMetaCount (find_existing_binary false oracleGoOnly 0).2.2 = 0 ∧
      (install_language_server false oracleGoOnly 5).1 = .error locate_failed_msg ∧
      fsMetaCount (install_language_server false oracleGoOnly 5).2.2 = 0 :=
  C10_home_unset false oracleGoOnly 0 5 { status := some 0, stdout := "", stderr := "" }
    (fun _ => rfl) rfl rfl rfl rfl
